import Mathlib

/-!
Verification of the RPXP cog (`src/rpxp/rpxp.py`).

The core of the repository is the message handler `on_message_without_command`
(lines 250-294), which decides whether an inbound chat message counts toward a
user's XP accrual, how many message-units it contributes, and whether an XP
award fires.  We embed that handler as a pure function `evaluate` over explicit
snapshots of the message facts, the guild settings and the member accrual
state, mirroring the Python control flow line by line.  The announcement side
effect (lines 285-294) is embedded as `announceAttempt` over an environment
describing how channel resolution and sending would behave, and the manual
admin grant `rpxp_add` (lines 315-321) as `rpxp_add`.

Numeric conventions: Python integers become `Int` (`Nat` for word counts and
channel ids, which are counts and snowflake ids), and timestamps
(`time.time()` floats) become `ℚ`, on which the subtraction and comparison in
the cooldown check are exact.
-/

namespace RPXP

/-- Facts about an inbound message that the handler reads:
`message.guild` truthiness, `message.author.bot`, `message.channel.id`,
the channel's parent id when the channel is a thread/forum post (present in
the platform data model; the handler may or may not consult it), and
`message.content`. -/
structure Message where
  hasGuild : Bool
  authorIsBot : Bool
  channelId : Nat
  parentChannelId : Option Nat
  content : String
deriving DecidableEq, Repr

/-- The per-guild configuration registered in `RPXP.__init__`
(`default_guild`, lines 52-61): `enabled`, `rp_channels`, `messages_needed`,
`xp_award`, `cooldown_seconds`, `announce_channel`, `words_per_unit`,
`min_words`. -/
structure GuildSettings where
  enabled : Bool
  rpChannels : List Nat
  messagesNeeded : Int
  xpAward : Int
  cooldownSeconds : ℚ
  announceChannel : Option Nat
  wordsPerUnit : Int
  minWords : Int
deriving DecidableEq, Repr

/-- The per-member accrual record registered in `RPXP.__init__`
(`default_member`, lines 63-67): `xp`, `msg_count`, `last_message_time`. -/
structure MemberState where
  xp : Int
  msgCount : Int
  lastMessageTime : ℚ
deriving DecidableEq, Repr

/-- The member defaults `{"xp": 0, "msg_count": 0, "last_message_time": 0.0}`
(lines 63-67). -/
def defaultMember : MemberState :=
  { xp := 0, msgCount := 0, lastMessageTime := 0 }

/-- Result of one handler invocation: the updated member record and whether
an award fired (the handler reached lines 281-283). -/
structure EvalResult where
  member : MemberState
  awardFired : Bool
deriving DecidableEq, Repr

/-- Scan of the character list counting maximal whitespace-free runs; the
flag records whether the scan is currently inside such a run. -/
def wordCountAux : List Char → Bool → Nat
  | [], _ => 0
  | c :: cs, inWord =>
    if c.isWhitespace then wordCountAux cs false
    else (if inWord then 0 else 1) + wordCountAux cs true

/-- `len(message.content.split())` (line 265): the number of maximal
whitespace-free, nonempty tokens of the content.  Python `str.split()` with no
argument splits on runs of whitespace and drops empty strings, so the length
of the resulting list is the number of maximal non-whitespace runs. -/
def wordCount (content : String) : Nat :=
  wordCountAux content.data false

/-- `max(1, math.ceil(words / g["words_per_unit"]))` (line 274): the number of
message-units a message of `words` words contributes. -/
def unitsFor (words : Nat) (wordsPerUnit : Int) : Int :=
  max 1 ⌈(words : ℚ) / (wordsPerUnit : ℚ)⌉

/-- The channel-eligibility test of line 259:
`message.channel.id not in g["rp_channels"]` short-circuits the handler, so a
message is eligible exactly when its own channel id is listed.  The channel's
parent id is never read. -/
def channelEligible (msg : Message) (g : GuildSettings) : Prop :=
  msg.channelId ∈ g.rpChannels

instance (msg : Message) (g : GuildSettings) : Decidable (channelEligible msg g) :=
  inferInstanceAs (Decidable (msg.channelId ∈ g.rpChannels))

/-- The handler `on_message_without_command` (lines 250-294) as a pure
function.  `now` is the `time.time()` value read at line 263.  Each Python
early `return` before any write becomes `⟨m, false⟩`; the accepted paths
collect the field writes of lines 272-283 into one updated record. -/
def evaluate (msg : Message) (g : GuildSettings) (m : MemberState) (now : ℚ) :
    EvalResult :=
  if !msg.hasGuild || msg.authorIsBot then ⟨m, false⟩
  else if !g.enabled then ⟨m, false⟩
  else if msg.channelId ∉ g.rpChannels then ⟨m, false⟩
  else if (wordCount msg.content : Int) < g.minWords then ⟨m, false⟩
  else if now - m.lastMessageTime < g.cooldownSeconds then ⟨m, false⟩
  else if m.msgCount + unitsFor (wordCount msg.content) g.wordsPerUnit < g.messagesNeeded then
    ⟨{ m with lastMessageTime := now, msgCount := m.msgCount + unitsFor (wordCount msg.content) g.wordsPerUnit }, false⟩
  else
    ⟨{ m with lastMessageTime := now, msgCount := 0, xp := m.xp + g.xpAward }, true⟩

/-- The manual grant command `rpxp_add` (lines 315-321): read the member's
current `xp` and overwrite it with `cur + xp`. -/
def rpxp_add (m : MemberState) (xp : Int) : MemberState :=
  { m with xp := m.xp + xp }

/-- Outcome of the platform `chan.send(...)` call, as the environment would
have it behave for a given channel. -/
inductive SendOutcome where
  | delivered
  | forbidden
deriving DecidableEq, Repr

/-- Environment for the announcement side effect: whether
`message.guild.get_channel(ann_id)` resolves (line 287), and what
`chan.send(...)` (line 290) would do. -/
structure AnnounceEnv where
  resolvable : Nat → Bool
  sendResult : Nat → SendOutcome

/-- The error a raw send can raise (`discord.Forbidden`). -/
inductive AnnErr where
  | forbidden
deriving DecidableEq, Repr

/-- The raw `chan.send(...)` call: raises `Forbidden` when the environment
says the bot lacks permission. -/
def sendMessage (env : AnnounceEnv) (cid : Nat) : Except AnnErr Unit :=
  match env.sendResult cid with
  | .delivered => Except.ok ()
  | .forbidden => Except.error AnnErr.forbidden

/-- The announcement block (lines 285-294): skip when no announce channel is
configured or it does not resolve; otherwise send once, catching
`discord.Forbidden` (`except discord.Forbidden: pass`).  The second component
counts how many send attempts were made. -/
def announceAttempt (g : GuildSettings) (env : AnnounceEnv) :
    Except AnnErr Unit × Nat :=
  match g.announceChannel with
  | none => (Except.ok (), 0)
  | some cid =>
    if env.resolvable cid then
      (match sendMessage env cid with
       | Except.error AnnErr.forbidden => Except.ok ()
       | r => r, 1)
    else (Except.ok (), 0)

/-- The whole handler including the announcement side effect: the accrual
updates are committed by `evaluate`, then, only when an award fired, the
announcement is attempted.  Returns the committed member state, the award
flag, the error (if any) escaping to the message-processing path, and the
number of send attempts. -/
def processMessage (msg : Message) (g : GuildSettings) (m : MemberState)
    (now : ℚ) (env : AnnounceEnv) :
    MemberState × Bool × Except AnnErr Unit × Nat :=
  if (evaluate msg g m now).awardFired then
    ((evaluate msg g m now).member, true, (announceAttempt g env).1,
      (announceAttempt g env).2)
  else ((evaluate msg g m now).member, false, Except.ok (), 0)

/-! Concrete sample data used to exercise the definitions. -/

/-- The guild defaults of `default_guild` (lines 52-61) with one channel,
id 1, added to `rp_channels`. -/
def sampleGuild : GuildSettings :=
  { enabled := true, rpChannels := [1], messagesNeeded := 5, xpAward := 10,
    cooldownSeconds := 15, announceChannel := none, wordsPerUnit := 25,
    minWords := 8 }

/-- A ten-word message from a human member, posted directly in channel 1. -/
def sampleMsg : Message :=
  { hasGuild := true, authorIsBot := false, channelId := 1,
    parentChannelId := none,
    content := "one two three four five six seven eight nine ten" }

/-- A two-word message, below the eight-word anti-spam floor. -/
def shortMsg : Message :=
  { hasGuild := true, authorIsBot := false, channelId := 1,
    parentChannelId := none, content := "too short" }

/-- The sample message as sent by a bot account. -/
def botMsg : Message :=
  { hasGuild := true, authorIsBot := true, channelId := 1,
    parentChannelId := none,
    content := "one two three four five six seven eight nine ten" }

/-- The same ten-word message posted in a thread: the thread's own channel id
is 1 and its parent channel id is 2. -/
def threadMsg : Message :=
  { hasGuild := true, authorIsBot := false, channelId := 1,
    parentChannelId := some 2,
    content := "one two three four five six seven eight nine ten" }

/-- The sample guild configured so that the parent channel 2 (and only it) is
listed in `rp_channels`. -/
def threadGuild : GuildSettings :=
  { sampleGuild with rpChannels := [2] }

/-- The sample guild with an announcement channel, id 3, configured. -/
def announceGuild : GuildSettings :=
  { sampleGuild with announceChannel := some 3 }

/-- A member accrual one unit short of the five-unit award threshold. -/
def nearAwardMember : MemberState :=
  { xp := 0, msgCount := 4, lastMessageTime := 0 }

/-- An environment where the announce channel resolves but every send is
rejected with `discord.Forbidden`. -/
def forbiddenEnv : AnnounceEnv :=
  { resolvable := fun _ => true, sendResult := fun _ => SendOutcome.forbidden }

/-! General helper lemmas about `evaluate`. -/

/-- On a fully qualifying message the handler reaches the accrual-update
branch: the result is determined by whether the new counter reaches the
award threshold. -/
theorem evaluate_accepted (msg : Message) (g : GuildSettings) (m : MemberState)
    (now : ℚ)
    (hGuild : msg.hasGuild = true) (hBot : msg.authorIsBot = false)
    (hEn : g.enabled = true) (hCh : msg.channelId ∈ g.rpChannels)
    (hW : g.minWords ≤ (wordCount msg.content : Int))
    (hCd : g.cooldownSeconds ≤ now - m.lastMessageTime) :
    evaluate msg g m now =
      if m.msgCount + unitsFor (wordCount msg.content) g.wordsPerUnit < g.messagesNeeded then
        ⟨{ m with lastMessageTime := now, msgCount := m.msgCount + unitsFor (wordCount msg.content) g.wordsPerUnit }, false⟩
      else
        ⟨{ m with lastMessageTime := now, msgCount := 0, xp := m.xp + g.xpAward }, true⟩ := by
  unfold evaluate
  rw [hGuild, hBot, hEn]
  simp only [Bool.not_true, Bool.or_false, if_neg Bool.false_ne_true]
  rw [if_neg (not_not_intro hCh), if_neg (not_lt.mpr hW), if_neg (not_lt.mpr hCd)]

/-- Any failing guard before the accrual update leaves the state untouched
and fires no award. -/
theorem evaluate_guard_noop (msg : Message) (g : GuildSettings) (m : MemberState)
    (now : ℚ)
    (h : msg.hasGuild = false ∨ msg.authorIsBot = true ∨ g.enabled = false ∨
      msg.channelId ∉ g.rpChannels ∨
      (wordCount msg.content : Int) < g.minWords ∨
      now - m.lastMessageTime < g.cooldownSeconds) :
    evaluate msg g m now = ⟨m, false⟩ := by
  unfold evaluate
  split
  · rfl
  next hg1 =>
  split
  · rfl
  next hg2 =>
  split
  · rfl
  next hg3 =>
  split
  · rfl
  next hg4 =>
  split
  · rfl
  next hg5 =>
  exfalso
  rcases h with h | h | h | h | h | h
  · simp [h] at hg1
  · simp [h] at hg1
  · simp [h] at hg2
  · exact hg3 h
  · exact hg4 h
  · exact hg5 h

/-- Every run of the handler ends in one of three shapes: untouched state, a
counted message below threshold, or an award. -/
theorem evaluate_result_cases (msg : Message) (g : GuildSettings)
    (m : MemberState) (now : ℚ) :
    evaluate msg g m now = ⟨m, false⟩ ∨
    (evaluate msg g m now = ⟨{ m with lastMessageTime := now, msgCount := m.msgCount + unitsFor (wordCount msg.content) g.wordsPerUnit }, false⟩ ∧
      m.msgCount + unitsFor (wordCount msg.content) g.wordsPerUnit < g.messagesNeeded) ∨
    (evaluate msg g m now = ⟨{ m with lastMessageTime := now, msgCount := 0, xp := m.xp + g.xpAward }, true⟩ ∧
      g.messagesNeeded ≤ m.msgCount + unitsFor (wordCount msg.content) g.wordsPerUnit) := by
  unfold evaluate
  split
  · exact Or.inl rfl
  split
  · exact Or.inl rfl
  split
  · exact Or.inl rfl
  split
  · exact Or.inl rfl
  split
  · exact Or.inl rfl
  split
  next hA => exact Or.inr (Or.inl ⟨rfl, hA⟩)
  next hA => exact Or.inr (Or.inr ⟨rfl, not_lt.mp hA⟩)

/-- The sample message has ten whitespace-delimited words. -/
theorem wordCount_sample : wordCount sampleMsg.content = 10 := by decide

/-- A 30-word message at 25 words per unit contributes two units. -/
theorem unitsFor_30_25 : unitsFor 30 25 = 2 := by
  have h : ⌈((30 : Nat) : ℚ) / ((25 : Int) : ℚ)⌉ = 2 := by
    rw [Int.ceil_eq_iff] ; norm_num
  rw [unitsFor, h]; norm_num

/-- A 10-word message at 25 words per unit contributes one unit. -/
theorem unitsFor_10_25 : unitsFor 10 25 = 1 := by
  have h : ⌈((10 : Nat) : ℚ) / ((25 : Int) : ℚ)⌉ = 1 := by
    rw [Int.ceil_eq_iff] ; norm_num
  rw [unitsFor, h]; norm_num

/-! The claims. -/

/-- Claim C1: on an accepted qualifying message (guild present and enabled,
eligible channel, non-bot author, word count at least `min_words`, cooldown
elapsed, with the settings constraint `messages_needed ≥ 1`), an award fires
exactly when the pre-update counter plus the contributed units reaches
`messages_needed`; on an award the counter is reset to 0 and `xp` grows by
exactly `xp_award`; otherwise the counter becomes the old counter plus the
units and `xp` is unchanged; and after the call the counter is strictly below
`messages_needed`. -/
theorem c1_award_boundary (msg : Message) (g : GuildSettings) (m : MemberState)
    (now : ℚ)
    (hGuild : msg.hasGuild = true) (hBot : msg.authorIsBot = false)
    (hEn : g.enabled = true) (hCh : msg.channelId ∈ g.rpChannels)
    (hW : g.minWords ≤ (wordCount msg.content : Int))
    (hCd : g.cooldownSeconds ≤ now - m.lastMessageTime)
    (hThr : 1 ≤ g.messagesNeeded) :
    ((evaluate msg g m now).awardFired = true ↔
      g.messagesNeeded ≤ m.msgCount + unitsFor (wordCount msg.content) g.wordsPerUnit) ∧
    ((evaluate msg g m now).awardFired = true →
      (evaluate msg g m now).member.msgCount = 0 ∧
      (evaluate msg g m now).member.xp = m.xp + g.xpAward) ∧
    ((evaluate msg g m now).awardFired = false →
      (evaluate msg g m now).member.msgCount
          = m.msgCount + unitsFor (wordCount msg.content) g.wordsPerUnit ∧
      (evaluate msg g m now).member.xp = m.xp) ∧
    (evaluate msg g m now).member.msgCount < g.messagesNeeded := by
  rw [evaluate_accepted msg g m now hGuild hBot hEn hCh hW hCd]
  by_cases hA : m.msgCount + unitsFor (wordCount msg.content) g.wordsPerUnit < g.messagesNeeded
  · rw [if_pos hA]
    refine ⟨?_, ?_, ?_, ?_⟩
    · simp
      omega
    · simp
    · simp
    · simpa using hA
  · rw [if_neg hA]
    refine ⟨?_, ?_, ?_, ?_⟩
    · simp
      omega
    · simp
    · simp
    · simpa using hThr

/-- Claim C2: an accepted message of `w` words contributes exactly
`max 1 ⌈w / words_per_unit⌉` units to the counter; in particular 30 words at
25 words per unit give 2 units and 10 words give 1 unit. -/
theorem c2_units_formula (msg : Message) (g : GuildSettings) (m : MemberState)
    (now : ℚ)
    (hGuild : msg.hasGuild = true) (hBot : msg.authorIsBot = false)
    (hEn : g.enabled = true) (hCh : msg.channelId ∈ g.rpChannels)
    (hW : g.minWords ≤ (wordCount msg.content : Int))
    (hCd : g.cooldownSeconds ≤ now - m.lastMessageTime)
    (hWpu : 1 ≤ g.wordsPerUnit)
    (hNoAw : m.msgCount + unitsFor (wordCount msg.content) g.wordsPerUnit < g.messagesNeeded) :
    (evaluate msg g m now).member.msgCount
        = m.msgCount + max 1 ⌈(wordCount msg.content : ℚ) / (g.wordsPerUnit : ℚ)⌉ ∧
    unitsFor 30 25 = 2 ∧ unitsFor 10 25 = 1 := by
  rw [evaluate_accepted msg g m now hGuild hBot hEn hCh hW hCd, if_pos hNoAw]
  exact ⟨by simp [unitsFor], unitsFor_30_25, unitsFor_10_25⟩

/-- Claim C3: after a qualifying message accepted at `t₀`, a second message
arriving at `t₁` with `t₁ - t₀ < cooldown_seconds` that would otherwise
qualify is a full no-op: `xp`, `msg_count` and `last_message_time` all keep
the values they had before it arrived, and no award fires. -/
theorem c3_cooldown_noop (msg₁ msg₂ : Message) (g : GuildSettings)
    (m : MemberState) (t₀ t₁ : ℚ)
    (h₁Guild : msg₁.hasGuild = true) (h₁Bot : msg₁.authorIsBot = false)
    (hEn : g.enabled = true) (h₁Ch : msg₁.channelId ∈ g.rpChannels)
    (h₁W : g.minWords ≤ (wordCount msg₁.content : Int))
    (h₁Cd : g.cooldownSeconds ≤ t₀ - m.lastMessageTime)
    (h₂Guild : msg₂.hasGuild = true) (h₂Bot : msg₂.authorIsBot = false)
    (h₂Ch : msg₂.channelId ∈ g.rpChannels)
    (h₂W : g.minWords ≤ (wordCount msg₂.content : Int))
    (hCd : t₁ - t₀ < g.cooldownSeconds) :
    evaluate msg₂ g (evaluate msg₁ g m t₀).member t₁
      = ⟨(evaluate msg₁ g m t₀).member, false⟩ := by
  have hLast : (evaluate msg₁ g m t₀).member.lastMessageTime = t₀ := by
    rw [evaluate_accepted msg₁ g m t₀ h₁Guild h₁Bot hEn h₁Ch h₁W h₁Cd]
    split
    · rfl
    · rfl
  apply evaluate_guard_noop
  refine Or.inr (Or.inr (Or.inr (Or.inr (Or.inr ?_))))
  rw [hLast]
  exact hCd

/-- Claim C4, counterexample: in the thread message, the parent channel id 2
is listed in `rp_channels` but the thread's own id 1 is not, yet the handler
treats the message as ineligible and does nothing — refuting "eligible iff
the immediate parent channel is in `rpChannels`". -/
theorem c4_counterexample :
    threadMsg.parentChannelId = some 2 ∧ (2 : Nat) ∈ threadGuild.rpChannels ∧
    ¬ (channelEligible threadMsg threadGuild ↔ (2 : Nat) ∈ threadGuild.rpChannels) ∧
    evaluate threadMsg threadGuild defaultMember 100 = ⟨defaultMember, false⟩ := by
  refine ⟨rfl, by decide, by decide, ?_⟩
  exact evaluate_guard_noop threadMsg threadGuild defaultMember 100
    (Or.inr (Or.inr (Or.inr (Or.inl (by decide)))))

/-- Claim C4, amended: for a message posted in a thread or forum post, the
message is channel-eligible iff the thread's or post's own channel id is in
`rp_channels`; the parent channel id is never consulted (the handler's result
is unchanged under any alteration of it), and a message whose own channel id
is not listed is a no-op. -/
theorem c4_amended (msg : Message) (g : GuildSettings) (m : MemberState)
    (now : ℚ) (p : Nat) (q : Option Nat)
    (hThread : msg.parentChannelId = some p) :
    (channelEligible msg g ↔ msg.channelId ∈ g.rpChannels) ∧
    evaluate msg g m now = evaluate { msg with parentChannelId := q } g m now ∧
    (msg.channelId ∉ g.rpChannels → evaluate msg g m now = ⟨m, false⟩) := by
  refine ⟨Iff.rfl, ?_, ?_⟩
  · cases msg
    rfl
  · intro h
    exact evaluate_guard_noop msg g m now (Or.inr (Or.inr (Or.inr (Or.inl h))))

/-- Claim C5: a message whose word count is below `min_words` changes neither
`msg_count` nor `last_message_time` nor `xp` and fires no award, whatever the
accrual state. -/
theorem c5_short_message_noop (msg : Message) (g : GuildSettings)
    (m : MemberState) (now : ℚ)
    (hW : (wordCount msg.content : Int) < g.minWords) :
    evaluate msg g m now = ⟨m, false⟩ :=
  evaluate_guard_noop msg g m now (Or.inr (Or.inr (Or.inr (Or.inr (Or.inl hW)))))

/-- Claim C6: if the guild is disabled, or the channel is not eligible, or
the author is an automated account, the handler is a no-op regardless of
message content: the accrual state is unchanged and no award fires. -/
theorem c6_gate_noop (msg : Message) (g : GuildSettings) (m : MemberState)
    (now : ℚ)
    (h : g.enabled = false ∨ ¬ channelEligible msg g ∨ msg.authorIsBot = true) :
    evaluate msg g m now = ⟨m, false⟩ := by
  apply evaluate_guard_noop
  rcases h with h | h | h
  · exact Or.inr (Or.inr (Or.inl h))
  · exact Or.inr (Or.inr (Or.inr (Or.inl h)))
  · exact Or.inr (Or.inl h)

/-- Claim C7: with `xp_award ≥ 0`, a handler call never decreases `xp`: the
result's `xp` is the old `xp` plus exactly `xp_award` when an award fired and
the old `xp` otherwise; the manual admin grant is the operation that changes
`xp` by an arbitrary amount. -/
theorem c7_xp_monotone (msg : Message) (g : GuildSettings) (m : MemberState)
    (now : ℚ) (x : Int) (hXp : 0 ≤ g.xpAward) :
    (evaluate msg g m now).member.xp
        = m.xp + (if (evaluate msg g m now).awardFired = true then g.xpAward else 0) ∧
    m.xp ≤ (evaluate msg g m now).member.xp ∧
    (rpxp_add m x).xp = m.xp + x := by
  rcases evaluate_result_cases msg g m now with h | ⟨h, _⟩ | ⟨h, _⟩ <;>
      rw [h] <;> refine ⟨?_, ?_, rfl⟩
  · simp
  · simp
  · simp
  · simp
  · simp
  · simp
    omega

/-- Claim C8: when an award fired and the announcement cannot be delivered
(the announce channel does not resolve, or sending raises `Forbidden`), the
failure is absorbed: no error reaches the message-processing path, at most
one send is attempted, the award stands, and the committed accrual state is
exactly the evaluator's output, not rolled back. -/
theorem c8_announce_failure_swallowed (msg : Message) (g : GuildSettings)
    (m : MemberState) (now : ℚ) (env : AnnounceEnv) (cid : Nat)
    (hAw : (evaluate msg g m now).awardFired = true)
    (hCh : g.announceChannel = some cid)
    (hFail : env.resolvable cid = false ∨
      env.sendResult cid = SendOutcome.forbidden) :
    (processMessage msg g m now env).1 = (evaluate msg g m now).member ∧
    (processMessage msg g m now env).2.1 = true ∧
    (processMessage msg g m now env).2.2.1 = Except.ok () ∧
    (processMessage msg g m now env).2.2.2 ≤ 1 := by
  have hAnn : (announceAttempt g env).1 = Except.ok () ∧
      (announceAttempt g env).2 ≤ 1 := by
    unfold announceAttempt
    rw [hCh]
    dsimp only
    rcases hFail with h | h
    · rw [if_neg (by simp [h])]
      exact ⟨rfl, by norm_num⟩
    · by_cases hr : env.resolvable cid = true
      · rw [if_pos hr]
        refine ⟨?_, by norm_num⟩
        simp [sendMessage, h]
      · rw [if_neg hr]
        exact ⟨rfl, by norm_num⟩
  unfold processMessage
  rw [if_pos hAw]
  exact ⟨rfl, rfl, hAnn.1, hAnn.2⟩

/-- Claim C9: the handler is deterministic — identical message facts, guild
settings, member state and arrival time produce identical results. -/
theorem c9_deterministic (msg₁ msg₂ : Message) (g₁ g₂ : GuildSettings)
    (m₁ m₂ : MemberState) (t₁ t₂ : ℚ)
    (hmsg : msg₁ = msg₂) (hg : g₁ = g₂) (hm : m₁ = m₂) (ht : t₁ = t₂) :
    evaluate msg₁ g₁ m₁ t₁ = evaluate msg₂ g₂ m₂ t₂ := by
  rw [hmsg, hg, hm, ht]

/-- Claim C10: a fresh member record has `last_message_time = 0`, so the
cooldown gate compares the arrival time against epoch zero and any first
otherwise-qualifying message arriving at `t ≥ cooldown_seconds` passes the
cooldown and is counted: the clock is set to `t` and the units are credited
(or an award fires). -/
theorem c10_fresh_user (msg : Message) (g : GuildSettings) (t : ℚ)
    (hGuild : msg.hasGuild = true) (hBot : msg.authorIsBot = false)
    (hEn : g.enabled = true) (hCh : msg.channelId ∈ g.rpChannels)
    (hW : g.minWords ≤ (wordCount msg.content : Int))
    (hT : g.cooldownSeconds ≤ t) :
    defaultMember.lastMessageTime = 0 ∧
    (evaluate msg g defaultMember t).member.lastMessageTime = t ∧
    ((evaluate msg g defaultMember t).awardFired = false →
      (evaluate msg g defaultMember t).member.msgCount
        = unitsFor (wordCount msg.content) g.wordsPerUnit) ∧
    ((evaluate msg g defaultMember t).awardFired = true →
      (evaluate msg g defaultMember t).member.xp
        = defaultMember.xp + g.xpAward) := by
  have hCd : g.cooldownSeconds ≤ t - defaultMember.lastMessageTime := by
    simpa [defaultMember] using hT
  rw [evaluate_accepted msg g defaultMember t hGuild hBot hEn hCh hW hCd]
  refine ⟨rfl, ?_, ?_, ?_⟩
  · split
    · rfl
    · rfl
  · split
    · intro _
      simp [defaultMember]
    · simp
  · split
    · simp
    · intro _
      rfl

/-! Witnesses: each theorem above with a hypothesis, instantiated at concrete
sample data with every hypothesis discharged. -/

/-- Claim C1 at the sample data: a fresh member posting the ten-word sample
message in the eligible channel. -/
theorem c1_award_boundary_witness :
    (sampleMsg.hasGuild = true ∧ sampleMsg.authorIsBot = false ∧
     sampleGuild.enabled = true ∧ sampleMsg.channelId ∈ sampleGuild.rpChannels ∧
     sampleGuild.minWords ≤ (wordCount sampleMsg.content : Int) ∧
     sampleGuild.cooldownSeconds ≤ (100 : ℚ) - defaultMember.lastMessageTime ∧
     (1 : Int) ≤ sampleGuild.messagesNeeded) ∧
    (((evaluate sampleMsg sampleGuild defaultMember 100).awardFired = true ↔
      sampleGuild.messagesNeeded ≤ defaultMember.msgCount + unitsFor (wordCount sampleMsg.content) sampleGuild.wordsPerUnit) ∧
     ((evaluate sampleMsg sampleGuild defaultMember 100).awardFired = true →
      (evaluate sampleMsg sampleGuild defaultMember 100).member.msgCount = 0 ∧
      (evaluate sampleMsg sampleGuild defaultMember 100).member.xp = defaultMember.xp + sampleGuild.xpAward) ∧
     ((evaluate sampleMsg sampleGuild defaultMember 100).awardFired = false →
      (evaluate sampleMsg sampleGuild defaultMember 100).member.msgCount
          = defaultMember.msgCount + unitsFor (wordCount sampleMsg.content) sampleGuild.wordsPerUnit ∧
      (evaluate sampleMsg sampleGuild defaultMember 100).member.xp = defaultMember.xp) ∧
     (evaluate sampleMsg sampleGuild defaultMember 100).member.msgCount < sampleGuild.messagesNeeded) := by
  have hCd : sampleGuild.cooldownSeconds ≤ (100 : ℚ) - defaultMember.lastMessageTime := by
    norm_num [sampleGuild, defaultMember]
  exact ⟨⟨rfl, rfl, rfl, by decide, by decide, hCd, by decide⟩,
    c1_award_boundary sampleMsg sampleGuild defaultMember 100 rfl rfl rfl
      (by decide) (by decide) hCd (by decide)⟩

/-- Claim C2 at the sample data. -/
theorem c2_units_formula_witness :
    (sampleGuild.minWords ≤ (wordCount sampleMsg.content : Int) ∧
     (1 : Int) ≤ sampleGuild.wordsPerUnit ∧
     defaultMember.msgCount + unitsFor (wordCount sampleMsg.content) sampleGuild.wordsPerUnit < sampleGuild.messagesNeeded) ∧
    ((evaluate sampleMsg sampleGuild defaultMember 100).member.msgCount
        = defaultMember.msgCount + max 1 ⌈(wordCount sampleMsg.content : ℚ) / (sampleGuild.wordsPerUnit : ℚ)⌉ ∧
     unitsFor 30 25 = 2 ∧ unitsFor 10 25 = 1) := by
  have hCd : sampleGuild.cooldownSeconds ≤ (100 : ℚ) - defaultMember.lastMessageTime := by
    norm_num [sampleGuild, defaultMember]
  have h10 : unitsFor (wordCount sampleMsg.content) sampleGuild.wordsPerUnit = 1 := by
    rw [wordCount_sample]
    exact unitsFor_10_25
  have hNoAw : defaultMember.msgCount + unitsFor (wordCount sampleMsg.content) sampleGuild.wordsPerUnit < sampleGuild.messagesNeeded := by
    rw [h10]
    decide
  exact ⟨⟨by decide, by decide, hNoAw⟩,
    c2_units_formula sampleMsg sampleGuild defaultMember 100 rfl rfl rfl
      (by decide) (by decide) hCd (by decide) hNoAw⟩

/-- Claim C3 at the sample data: two sample messages at times 100 and 105,
five seconds apart against a fifteen-second cooldown. -/
theorem c3_cooldown_noop_witness :
    (sampleGuild.cooldownSeconds ≤ (100 : ℚ) - defaultMember.lastMessageTime ∧
     (105 : ℚ) - 100 < sampleGuild.cooldownSeconds) ∧
    evaluate sampleMsg sampleGuild (evaluate sampleMsg sampleGuild defaultMember 100).member 105
      = ⟨(evaluate sampleMsg sampleGuild defaultMember 100).member, false⟩ := by
  have hCd1 : sampleGuild.cooldownSeconds ≤ (100 : ℚ) - defaultMember.lastMessageTime := by
    norm_num [sampleGuild, defaultMember]
  have hCd2 : (105 : ℚ) - 100 < sampleGuild.cooldownSeconds := by
    norm_num [sampleGuild]
  exact ⟨⟨hCd1, hCd2⟩,
    c3_cooldown_noop sampleMsg sampleMsg sampleGuild defaultMember 100 105
      rfl rfl rfl (by decide) (by decide) hCd1 rfl rfl (by decide) (by decide) hCd2⟩

/-- Claim C4 (amended) at the thread sample. -/
theorem c4_amended_witness :
    threadMsg.parentChannelId = some 2 ∧
    ((channelEligible threadMsg threadGuild ↔ threadMsg.channelId ∈ threadGuild.rpChannels) ∧
     evaluate threadMsg threadGuild defaultMember 100
        = evaluate { threadMsg with parentChannelId := none } threadGuild defaultMember 100 ∧
     (threadMsg.channelId ∉ threadGuild.rpChannels →
      evaluate threadMsg threadGuild defaultMember 100 = ⟨defaultMember, false⟩)) :=
  ⟨rfl, c4_amended threadMsg threadGuild defaultMember 100 2 none rfl⟩

/-- Claim C5 at the sample data: a two-word message against the eight-word
floor, on a member one unit short of an award. -/
theorem c5_short_message_noop_witness :
    ((wordCount shortMsg.content : Int) < sampleGuild.minWords) ∧
    evaluate shortMsg sampleGuild nearAwardMember 100 = ⟨nearAwardMember, false⟩ :=
  ⟨by decide, c5_short_message_noop shortMsg sampleGuild nearAwardMember 100 (by decide)⟩

/-- Claim C6 at the sample data: the sample message sent by a bot account. -/
theorem c6_gate_noop_witness :
    (sampleGuild.enabled = false ∨ ¬ channelEligible botMsg sampleGuild ∨
     botMsg.authorIsBot = true) ∧
    evaluate botMsg sampleGuild defaultMember 100 = ⟨defaultMember, false⟩ :=
  ⟨Or.inr (Or.inr rfl),
    c6_gate_noop botMsg sampleGuild defaultMember 100 (Or.inr (Or.inr rfl))⟩

/-- Claim C7 at the sample data, with a manual grant of 7 XP. -/
theorem c7_xp_monotone_witness :
    ((0 : Int) ≤ sampleGuild.xpAward) ∧
    ((evaluate sampleMsg sampleGuild defaultMember 100).member.xp
        = defaultMember.xp + (if (evaluate sampleMsg sampleGuild defaultMember 100).awardFired = true then sampleGuild.xpAward else 0) ∧
     defaultMember.xp ≤ (evaluate sampleMsg sampleGuild defaultMember 100).member.xp ∧
     (rpxp_add defaultMember 7).xp = defaultMember.xp + 7) :=
  ⟨by decide, c7_xp_monotone sampleMsg sampleGuild defaultMember 100 7 (by decide)⟩

/-- Claim C8 at the sample data: the member one unit short of the threshold
posts the sample message, the award fires, and every send on the configured
announce channel 3 is rejected with `Forbidden`. -/
theorem c8_announce_failure_swallowed_witness :
    ((evaluate sampleMsg announceGuild nearAwardMember 100).awardFired = true ∧
     announceGuild.announceChannel = some 3 ∧
     forbiddenEnv.sendResult 3 = SendOutcome.forbidden) ∧
    ((processMessage sampleMsg announceGuild nearAwardMember 100 forbiddenEnv).1
        = (evaluate sampleMsg announceGuild nearAwardMember 100).member ∧
     (processMessage sampleMsg announceGuild nearAwardMember 100 forbiddenEnv).2.1 = true ∧
     (processMessage sampleMsg announceGuild nearAwardMember 100 forbiddenEnv).2.2.1 = Except.ok () ∧
     (processMessage sampleMsg announceGuild nearAwardMember 100 forbiddenEnv).2.2.2 ≤ 1) := by
  have hCd : announceGuild.cooldownSeconds ≤ (100 : ℚ) - nearAwardMember.lastMessageTime := by
    norm_num [announceGuild, sampleGuild, nearAwardMember]
  have h10 : unitsFor (wordCount sampleMsg.content) announceGuild.wordsPerUnit = 1 := by
    rw [wordCount_sample]
    exact unitsFor_10_25
  have hAw : (evaluate sampleMsg announceGuild nearAwardMember 100).awardFired = true := by
    rw [evaluate_accepted sampleMsg announceGuild nearAwardMember 100 rfl rfl rfl
        (by decide) (by decide) hCd,
      if_neg (by rw [h10]; decide)]
  exact ⟨⟨hAw, rfl, rfl⟩,
    c8_announce_failure_swallowed sampleMsg announceGuild nearAwardMember 100
      forbiddenEnv 3 hAw rfl (Or.inr rfl)⟩

/-- Claim C9 at the sample data. -/
theorem c9_deterministic_witness :
    (sampleMsg = sampleMsg ∧ sampleGuild = sampleGuild ∧
     defaultMember = defaultMember ∧ (100 : ℚ) = 100) ∧
    evaluate sampleMsg sampleGuild defaultMember 100
      = evaluate sampleMsg sampleGuild defaultMember 100 :=
  ⟨⟨rfl, rfl, rfl, rfl⟩,
    c9_deterministic sampleMsg sampleMsg sampleGuild sampleGuild defaultMember
      defaultMember 100 100 rfl rfl rfl rfl⟩

/-- Claim C10 at the sample data: a fresh member's first message at t = 100
against the fifteen-second cooldown. -/
theorem c10_fresh_user_witness :
    (sampleGuild.cooldownSeconds ≤ (100 : ℚ)) ∧
    (defaultMember.lastMessageTime = 0 ∧
     (evaluate sampleMsg sampleGuild defaultMember 100).member.lastMessageTime = 100 ∧
     ((evaluate sampleMsg sampleGuild defaultMember 100).awardFired = false →
      (evaluate sampleMsg sampleGuild defaultMember 100).member.msgCount
        = unitsFor (wordCount sampleMsg.content) sampleGuild.wordsPerUnit) ∧
     ((evaluate sampleMsg sampleGuild defaultMember 100).awardFired = true →
      (evaluate sampleMsg sampleGuild defaultMember 100).member.xp
        = defaultMember.xp + sampleGuild.xpAward)) := by
  have hT : sampleGuild.cooldownSeconds ≤ (100 : ℚ) := by
    norm_num [sampleGuild]
  exact ⟨hT, c10_fresh_user sampleMsg sampleGuild 100 rfl rfl rfl (by decide)
    (by decide) hT⟩

end RPXP
